import Mathlib

/-!
Verification development for `start.py` of the frappe-docker-quickstart
repository: a shallow embedding of the script's pure logic (the
initialization-completion poller, port discovery, password generation,
app-name derivation, environment-file assembly, and the exit-code
discipline of `main` and the `__main__` guard), together with theorems
settling the specification's claims about it.
-/

set_option autoImplicit false

namespace FrappeQuickstart

/-! ## The initialization-completion poller (`wait_for_site_creation`)

`docker compose ps --all --format json` prints one line per service.  Each
line is either malformed (not valid JSON — `json.loads` raises and the code
does `continue`) or a record from which the code reads the `Service`,
`State` and `ExitCode` fields (with defaults `''`, `''` and `-1`).  A whole
query can also fail (`returncode != 0` or empty stdout), in which case the
loop just sleeps and retries.
-/

/-- One line of `docker compose ps` output: either not valid JSON, or a
parsed record with its `Service`, `State` and `ExitCode` fields (the
defaults used by the code when a field is absent are already applied). -/
inductive Line where
  | malformed : Line
  | record (service : String) (state : String) (exitCode : Int) : Line
deriving DecidableEq

/-- Outcome of one status query (`subprocess.run(['docker','compose','ps',...])`):
`err` models `returncode != 0` or empty stdout, `ok` carries the nonempty
lines of stdout. -/
inductive PollResult where
  | err : PollResult
  | ok (lines : List Line) : PollResult

/-- Result of `wait_for_site_creation`: the code returns `True` on a
`create-site` record with state `exited` and exit code 0, returns `False`
(after reporting the code) on `exited` with a nonzero code, and returns
`False` (after reporting a timeout) when the deadline elapses. -/
inductive WaitOutcome where
  | success : WaitOutcome
  | failed (code : Int) : WaitOutcome
  | timedOut : WaitOutcome
deriving DecidableEq

/-- The `for line in lines` body of `wait_for_site_creation`: skip lines
that fail to parse, skip records of other services, and on a `create-site`
record with state `exited` decide success or failure by the exit code.
Any other state falls through and the scan continues. -/
def scanLines : List Line → Option WaitOutcome
  | [] => none
  | Line.malformed :: rest => scanLines rest
  | Line.record service state exitCode :: rest =>
    if service = "create-site" then
      if state = "exited" then
        if exitCode = 0 then some WaitOutcome.success
        else some (WaitOutcome.failed exitCode)
      else scanLines rest
    else scanLines rest

/-- One iteration's status check: a failed query decides nothing; a
successful one is scanned line by line. -/
def pollStep : PollResult → Option WaitOutcome
  | PollResult.err => none
  | PollResult.ok lines => scanLines lines

/-- The `time.sleep(3)` between polls. -/
def pollInterval : Nat := 3

/-- The `while time.time() - start_time < timeout` loop: poll `i` happens
at elapsed time `pollInterval * i`; the loop re-checks the deadline before
every query and returns the timeout outcome once it is reached.  `fuel`
only drives the recursion and is chosen large enough in
`wait_for_site_creation` that it never cuts the loop short. -/
def waitAux (status : Nat → PollResult) (timeout : Nat) : Nat → Nat → WaitOutcome
  | 0, _ => WaitOutcome.timedOut
  | fuel + 1, i =>
    if pollInterval * i < timeout then
      match pollStep (status i) with
      | some d => d
      | none => waitAux status timeout fuel (i + 1)
    else WaitOutcome.timedOut

/-- `wait_for_site_creation(timeout)`: poll the status stream until a
terminal `create-site` record is seen or the deadline elapses. -/
def wait_for_site_creation (status : Nat → PollResult) (timeout : Nat) : WaitOutcome :=
  waitAux status timeout (timeout + 1) 0

/-- A line that cannot end the loop: malformed, another service, or a
`create-site` record whose state is not `exited`. -/
def isTerminalCreateSite : Line → Bool
  | Line.malformed => false
  | Line.record service state _ => decide (service = "create-site" ∧ state = "exited")

/-- A parsed (well-formed JSON) line. -/
def isJsonRecord : Line → Bool
  | Line.malformed => false
  | Line.record _ _ _ => true

/-- Dropping the malformed lines from a query result. -/
def dropMalformed : PollResult → PollResult
  | PollResult.err => PollResult.err
  | PollResult.ok lines => PollResult.ok (lines.filter isJsonRecord)

/-! ## Port discovery (`find_available_port`) -/

/-- The `for port in range(start_port, start_port + max_tries)` loop of
`find_available_port`, with the host's port occupancy abstracted as the
predicate `occupied` (binding a socket succeeds exactly on free ports).
`k` is the offset of the next port to try, `tries` the number of ports
left in the range. -/
def findPortGo (occupied : Int → Bool) (start_port : Int) : Nat → Nat → Option Int
  | _, 0 => none
  | k, tries + 1 =>
    if occupied (start_port + (k : Int)) then findPortGo occupied start_port (k + 1) tries
    else some (start_port + (k : Int))

/-- `find_available_port(start_port, max_tries)`: first free port in the
range, or the `RuntimeError` (modelled as `Except.error` with the same
message) when every port in the range is occupied. -/
def find_available_port (occupied : Int → Bool) (start_port : Int) (max_tries : Nat) :
    Except String Int :=
  match findPortGo occupied start_port 0 max_tries with
  | some p => Except.ok p
  | none =>
    Except.error ("No available port found in range " ++ toString start_port ++ "-"
      ++ toString (start_port + (max_tries : Int)))

/-! ## Password generation (`generate_password`) -/

/-- `string.ascii_letters + string.digits`, the alphabet of
`generate_password`. -/
def alphabet : List Char :=
  "abcdefghijklmnopqrstuvwxyzABCDEFGHIJKLMNOPQRSTUVWXYZ0123456789".toList

/-- `secrets.choice(alphabet)`: one uniformly random element of the
alphabet; the randomness is abstracted as an arbitrary natural `r`, taken
modulo the alphabet size so that every draw is an alphabet element. -/
def secretsChoice (r : Nat) : Char :=
  alphabet.get ⟨r % alphabet.length, Nat.mod_lt r (by decide)⟩

/-- `generate_password(length)`: join `length` independent draws from the
alphabet, the random source abstracted as the stream `choices`. -/
def generate_password (choices : Nat → Nat) (length : Nat) : String :=
  String.mk ((List.range length).map (fun i => secretsChoice (choices i)))

/-! ## Python string helpers

Python `str` values are embedded as `List Char`, so that the string
operations `start.py` uses (`rstrip('/')`, `split('/')`,
`replace('.git','')`, f-string assembly) become executable list
functions. -/

/-- `str.split(sep)` for a one-character separator: Python semantics, so
the result is never empty and empty pieces are kept. -/
def splitOnChar (sep : Char) : List Char → List (List Char)
  | [] => [[]]
  | c :: rest =>
    if c = sep then [] :: splitOnChar sep rest
    else
      match splitOnChar sep rest with
      | [] => [[c]]
      | l :: ls => (c :: l) :: ls

/-- `url.rstrip('/')`. -/
def pyRstripSlash (s : List Char) : List Char :=
  (s.reverse.dropWhile (fun c => c = '/')).reverse

/-- `s.replace('.git', '')`: Python scans left to right and removes every
non-overlapping occurrence of `.git`, not only a trailing suffix. -/
def removeDotGit : List Char → List Char
  | [] => []
  | c1 :: rest =>
    match rest with
    | c2 :: c3 :: c4 :: rest4 =>
      if c1 = '.' ∧ c2 = 'g' ∧ c3 = 'i' ∧ c4 = 't' then removeDotGit rest4
      else c1 :: removeDotGit (c2 :: c3 :: c4 :: rest4)
    | short => c1 :: removeDotGit short

/-- Whether `.git` occurs anywhere in `s` (same scan as `removeDotGit`). -/
def hasDotGit : List Char → Bool
  | [] => false
  | c1 :: rest =>
    match rest with
    | c2 :: c3 :: c4 :: rest4 =>
      if c1 = '.' ∧ c2 = 'g' ∧ c3 = 'i' ∧ c4 = 't' then true
      else hasDotGit (c2 :: c3 :: c4 :: rest4)
    | short => hasDotGit short

/-- The app-name derivation used (verbatim, twice) in `create_env_file`
and `clone_apps_to_host`: `url.rstrip('/').split('/')[-1].replace('.git', '')`. -/
def derive_app_name (url : List Char) : List Char :=
  removeDotGit ((splitOnChar '/' (pyRstripSlash url)).getLastD [])

/-- The derivation in the spec's words, for comparison with
`derive_app_name`: take the final path segment of the source location and
strip the version-control suffix `.git` (only a trailing suffix). -/
def spec_derived_name (url : List Char) : List Char :=
  let seg := (splitOnChar '/' (pyRstripSlash url)).getLastD []
  if ['.', 'g', 'i', 't'].isSuffixOf seg then seg.take (seg.length - 4) else seg

/-! ## Presets and the environment file (`create_env_file`) -/

/-- One entry of a preset's JSON array: a dict whose `url` and `branch`
keys may each be absent (the code reads them with `.get(key, default)`). -/
structure AppDescriptor where
  url : Option (List Char)
  branch : Option (List Char)

/-- The `app_names` loop of `create_env_file`: derive each name from
`app.get('url', '')` and keep the nonempty ones. -/
def envAppNames : List AppDescriptor → List (List Char)
  | [] => []
  | a :: rest =>
    let app_name := derive_app_name (a.url.getD [])
    if app_name ≠ [] then app_name :: envAppNames rest
    else envAppNames rest

/-- `','.join(app_names) if app_names else ''` (the join of the empty list
is already the empty string). -/
def installApps (apps : List AppDescriptor) : List Char :=
  List.intercalate [','] (envAppNames apps)

/-- Decimal digit characters. -/
def digitChars : List Char := "0123456789".toList

/-- Decimal representation of a natural number, least significant digit
last, with explicit fuel to keep the recursion structural; `n + 1` units
of fuel always suffice since the value shrinks by a factor of ten each
step. -/
def natDigitsAux : Nat → Nat → List Char
  | 0, _ => []
  | fuel + 1, n =>
    if n < 10 then [digitChars.getD n '0']
    else natDigitsAux fuel (n / 10) ++ [digitChars.getD (n % 10) '0']

/-- Decimal representation of a natural number, as Python's `str` renders
nonnegative integers. -/
def natDigits (n : Nat) : List Char := natDigitsAux (n + 1) n

/-- Python `str(i)` for an `int`: a minus sign followed by the digits for
negative values. -/
def intToString : Int → List Char
  | Int.ofNat n => natDigits n
  | Int.negSucc n => '-' :: natDigits (n + 1)

/-- Lift a Lean string literal to the `List Char` embedding. -/
def lit (s : String) : List Char := s.toList

/-- The content `create_env_file` writes to `.env` (the `Path.write_text`
side effect is modelled by returning the content): the f-string of the
source, with the inputs spliced in. -/
def create_env_file (port : Int) (admin_password db_password preset frappe_version : List Char)
    (apps : List AppDescriptor) : List Char :=
  lit "# Frappe Configuration\nFRAPPE_VERSION=" ++ frappe_version ++
  lit "\nSITE_NAME=frontend\n\n# Security - Auto-generated by start.py\nADMIN_PASSWORD=" ++
  admin_password ++
  lit "\nDB_ROOT_PASSWORD=" ++ db_password ++
  lit "\nMYSQL_ROOT_PASSWORD=" ++ db_password ++
  lit "\nMARIADB_ROOT_PASSWORD=" ++ db_password ++
  lit "\n\n# Network Configuration\nPORT=" ++ intToString port ++
  lit "\n\n# Docker Configuration\nPROJECT_NAME=frappe_quickstart\nIMAGE_NAME=frappe_quickstart:latest\n\n# Preset used\nPRESET=" ++
  preset ++
  lit "\n\n# Apps to install (comma-separated)\nINSTALL_APPS=" ++ installApps apps ++
  lit "\n"

/-- Read a `key=value` entry back out of a line list: the value of the
first line that starts with `key=`. -/
def findValue (key : List Char) : List (List Char) → Option (List Char)
  | [] => none
  | l :: ls =>
    if (key ++ ['=']).isPrefixOf l then some (l.drop (key.length + 1))
    else findValue key ls

/-- Read a `key=value` entry back out of env-file content. -/
def envLookup (key : List Char) (content : List Char) : Option (List Char) :=
  findValue key (splitOnChar '\n' content)

/-- Join lines with newlines (inverse of `splitOnChar '\n'` on
newline-free lines); used to state what `create_env_file` writes line by
line. -/
def joinLines : List (List Char) → List Char
  | [] => []
  | [l] => l
  | l :: ls => l ++ '\n' :: joinLines ls

/-! ## Cloning (`clone_apps_to_host`) -/

/-- The clone target directory for one preset app in
`clone_apps_to_host`: `Path('apps') / app_name` with the same name
derivation `url.rstrip('/').split('/')[-1].replace('.git', '')` as in
`create_env_file`. -/
def clone_target_dir (app : AppDescriptor) : List Char :=
  lit "apps/" ++ derive_app_name (app.url.getD [])

/-! ## `main` and the `__main__` guard: exit codes

`main` is a linear sequence of steps, each either succeeding or calling
`sys.exit(1)`.  The external world a run encounters is captured by a
`World`: the outcome of every external call the script makes.  An
uncaught `KeyboardInterrupt` or other exception propagates to the
`__main__` guard, which maps them to exit codes 130 and 1; `sys.exit`
itself raises `SystemExit`, which neither guard catches, so its code is
the process exit code. -/

/-- What `input("Are you sure? ...")` produces at the destroy
confirmation prompt: a line of text, or a `KeyboardInterrupt` raised while
waiting (which the destroy branch catches itself). -/
inductive PromptOutcome where
  | answer (s : String) : PromptOutcome
  | interrupt : PromptOutcome

/-- How the `main()` call inside the `__main__` guard ends: with
`sys.exit(code)` (or falling off the end, which is `code = 0`), with an
uncaught `KeyboardInterrupt`, or with some other uncaught exception. -/
inductive MainOutcome where
  | exits (code : Nat) : MainOutcome
  | keyboardInterrupt : MainOutcome
  | unexpectedError : MainOutcome

/-- Python truthiness of `args.port` (an `Optional[int]`): `None` and `0`
are both falsy in the `if args.port:` test of `main`. -/
def pyTruthyInt : Option Int → Bool
  | none => false
  | some v => decide (v ≠ 0)

/-- The port-selection fragment of `main` (step 3): use `args.port` when
it is truthy, otherwise search for a free port from 8080. -/
def portSelect (portArg : Option Int) (occupied : Int → Bool) : Except String Int :=
  if pyTruthyInt portArg then Except.ok ((portArg).getD 0)
  else find_available_port occupied 8080 100

/-- The outcomes of all external calls one run of the script can make. -/
structure World where
  /-- `--destroy` was passed. -/
  destroy : Bool
  /-- what the destroy confirmation prompt produces. -/
  prompt : PromptOutcome
  /-- whether `docker compose down -v` in `destroy_environment` succeeds. -/
  destroyOk : Bool
  /-- whether `check_dependencies` finds docker and docker compose. -/
  depsOk : Bool
  /-- what `load_preset` produces: the app list, or the message of the
  `FileNotFoundError` / `ValueError` / `JSONDecodeError` it raises. -/
  preset : Except String (List AppDescriptor)
  /-- the `--port` argument, if given. -/
  portArg : Option Int
  /-- which ports are occupied on the host. -/
  occupied : Int → Bool
  /-- whether `clone_apps_to_host` succeeds. -/
  cloneOk : Bool
  /-- whether `build_docker_image` succeeds. -/
  buildOk : Bool
  /-- whether `start_docker_services` succeeds. -/
  startOk : Bool
  /-- the `docker compose ps` status stream seen by the poller. -/
  siteStatus : Nat → PollResult
  /-- a `KeyboardInterrupt` is raised at an uncaught point of the setup
  flow (everywhere except the destroy prompt, no handler catches it). -/
  interrupted : Bool
  /-- some other exception is raised at an uncaught point of the setup
  flow. -/
  unexpected : Bool

/-- The `--destroy` branch of `main`: ask for confirmation (an interrupt
at the prompt is caught and exits 0), exit 0 unless the answer lowercases
to `yes`, then destroy and exit 0 on success, 1 on failure. -/
def destroyFlow (w : World) : MainOutcome :=
  match w.prompt with
  | PromptOutcome.interrupt => MainOutcome.exits 0
  | PromptOutcome.answer s =>
    if s.toLower ≠ "yes" then MainOutcome.exits 0
    else if w.destroyOk then MainOutcome.exits 0
    else MainOutcome.exits 1

/-- Steps 1-10 of `main`: each failing step exits 1, and a run that
reaches the end (browser failures are caught) returns normally, i.e.
exit code 0. -/
def setupFlow (w : World) : MainOutcome :=
  if ¬ w.depsOk then MainOutcome.exits 1
  else
    match w.preset with
    | Except.error _ => MainOutcome.exits 1
    | Except.ok _apps =>
      match portSelect w.portArg w.occupied with
      | Except.error _ => MainOutcome.exits 1
      | Except.ok _port =>
        if ¬ w.cloneOk then MainOutcome.exits 1
        else if ¬ w.buildOk then MainOutcome.exits 1
        else if ¬ w.startOk then MainOutcome.exits 1
        else
          match wait_for_site_creation w.siteStatus 300 with
          | WaitOutcome.success => MainOutcome.exits 0
          | _ => MainOutcome.exits 1

/-- `main()` as a whole: the destroy branch handles its prompt interrupt
itself; anywhere else an interrupt or unexpected exception escapes to the
`__main__` guard. -/
def mainRun (w : World) : MainOutcome :=
  if w.destroy then destroyFlow w
  else if w.interrupted then MainOutcome.keyboardInterrupt
  else if w.unexpected then MainOutcome.unexpectedError
  else setupFlow w

/-- The `__main__` guard: `KeyboardInterrupt` exits 130, any other
exception exits 1, and `SystemExit` codes pass through. -/
def script_exit_code (w : World) : Nat :=
  match mainRun w with
  | MainOutcome.exits c => c
  | MainOutcome.keyboardInterrupt => 130
  | MainOutcome.unexpectedError => 1

/-! ## Poller lemmas -/

theorem scanLines_skip (l : Line) (ls : List Line) (h : isTerminalCreateSite l = false) :
    scanLines (l :: ls) = scanLines ls := by
  cases l with
  | malformed => rfl
  | record s st c =>
    simp only [isTerminalCreateSite, decide_eq_false_iff_not, not_and] at h
    by_cases hs : s = "create-site"
    · by_cases ht : st = "exited"
      · exact absurd ht (h hs)
      · simp [scanLines, hs, ht]
    · simp [scanLines, hs]

theorem scanLines_append (pre rest : List Line)
    (h : ∀ l ∈ pre, isTerminalCreateSite l = false) :
    scanLines (pre ++ rest) = scanLines rest := by
  induction pre with
  | nil => rfl
  | cons a pre ih =>
    rw [List.cons_append, scanLines_skip a _ (h a (List.mem_cons_self a pre))]
    exact ih (fun l hl => h l (List.mem_cons_of_mem a hl))

theorem scanLines_terminal (c : Int) (rest : List Line) :
    scanLines (Line.record "create-site" "exited" c :: rest) =
      some (if c = 0 then WaitOutcome.success else WaitOutcome.failed c) := by
  by_cases hc : c = 0 <;> simp [scanLines, hc]

theorem scanLines_none (lines : List Line)
    (h : ∀ l ∈ lines, isTerminalCreateSite l = false) : scanLines lines = none := by
  have := scanLines_append lines [] h
  simpa using this

theorem waitAux_advance (status : Nat → PollResult) (timeout : Nat) :
    ∀ (n i fuel : Nat), (∀ j, i ≤ j → j < i + n → pollStep (status j) = none) →
      pollInterval * (i + n) < timeout →
      waitAux status timeout (fuel + n) i = waitAux status timeout fuel (i + n) := by
  intro n
  induction n with
  | zero => intro i fuel _ _; rfl
  | succ n ih =>
    intro i fuel h hd
    have hdi : pollInterval * i < timeout :=
      lt_of_le_of_lt (Nat.mul_le_mul_left _ (by omega)) hd
    have hstep : pollStep (status i) = none := h i (le_refl i) (by omega)
    have hrw : fuel + (n + 1) = (fuel + n) + 1 := by omega
    rw [hrw]
    simp only [waitAux, hdi, if_true, hstep]
    have h2 : ∀ j, i + 1 ≤ j → j < (i + 1) + n → pollStep (status j) = none := by
      intro j h1 h2; exact h j (by omega) (by omega)
    have hd2 : pollInterval * ((i + 1) + n) < timeout := by
      have : (i + 1) + n = i + (n + 1) := by omega
      rw [this]; exact hd
    have := ih (i + 1) fuel h2 hd2
    rw [this]
    have : (i + 1) + n = i + (n + 1) := by omega
    rw [this]

theorem wait_reaches (status : Nat → PollResult) (timeout i : Nat)
    (hb : ∀ j, j < i → pollStep (status j) = none)
    (hd : pollInterval * i < timeout) :
    wait_for_site_creation status timeout = waitAux status timeout (timeout + 1 - i) i := by
  have hi : i ≤ timeout := by
    have h3 : pollInterval = 3 := rfl
    rw [h3] at hd; omega
  have hfe : timeout + 1 = (timeout + 1 - i) + i := by omega
  unfold wait_for_site_creation
  rw [hfe]
  have := waitAux_advance status timeout i 0 (timeout + 1 - i)
    (fun j _ hj => hb j (by omega)) (by simpa using hd)
  simpa using this

theorem waitAux_timeout (status : Nat → PollResult) (timeout : Nat)
    (h : ∀ i, pollInterval * i < timeout → pollStep (status i) = none) :
    ∀ fuel i, waitAux status timeout fuel i = WaitOutcome.timedOut := by
  intro fuel
  induction fuel with
  | zero => intro i; rfl
  | succ fuel ih =>
    intro i
    by_cases hd : pollInterval * i < timeout
    · simp only [waitAux, hd, if_true, h i hd]
      exact ih (i + 1)
    · simp only [waitAux, hd, if_false]

/-- C1: for every status sequence observed by `wait_for_site_creation`, a
`create-site` record with state `exited` and exit code 0 (first terminal
record of the first deciding poll, reached before the deadline) makes the
poller return success; with a nonzero exit code it returns failure
carrying that code; and a poll whose lines hold no `exited` `create-site`
record decides nothing, so the loop keeps polling. -/
theorem wait_for_site_creation_terminal_states (status : Nat → PollResult) (timeout i : Nat)
    (hd : pollInterval * i < timeout)
    (hb : ∀ j, j < i → pollStep (status j) = none) :
    (∀ pre rest, (∀ l ∈ pre, isTerminalCreateSite l = false) →
        status i = PollResult.ok (pre ++ Line.record "create-site" "exited" 0 :: rest) →
        wait_for_site_creation status timeout = WaitOutcome.success) ∧
    (∀ pre rest (c : Int), c ≠ 0 → (∀ l ∈ pre, isTerminalCreateSite l = false) →
        status i = PollResult.ok (pre ++ Line.record "create-site" "exited" c :: rest) →
        wait_for_site_creation status timeout = WaitOutcome.failed c) ∧
    (∀ lines, (∀ l ∈ lines, isTerminalCreateSite l = false) →
        pollStep (PollResult.ok lines) = none) := by
  have hstep : ∀ (d : WaitOutcome), pollStep (status i) = some d →
      wait_for_site_creation status timeout = d := by
    intro d hsd
    rw [wait_reaches status timeout i hb hd]
    have hi : i ≤ timeout := by
      have h3 : pollInterval = 3 := rfl
      rw [h3] at hd; omega
    have hfe : timeout + 1 - i = (timeout - i) + 1 := by omega
    rw [hfe]
    simp only [waitAux, hd, if_true, hsd]
  refine ⟨?_, ?_, ?_⟩
  · intro pre rest hpre hst
    refine hstep WaitOutcome.success ?_
    rw [hst]
    show scanLines (pre ++ Line.record "create-site" "exited" 0 :: rest) = _
    rw [scanLines_append pre _ hpre, scanLines_terminal]
    simp
  · intro pre rest c hc hpre hst
    refine hstep (WaitOutcome.failed c) ?_
    rw [hst]
    show scanLines (pre ++ Line.record "create-site" "exited" c :: rest) = _
    rw [scanLines_append pre _ hpre, scanLines_terminal]
    simp [hc]
  · intro lines hl
    exact scanLines_none lines hl

/-- Witness for C1: the spec's poller scenarios, with the deadline and
earlier-poll hypotheses discharged concretely.  The sequence pending,
pending, exited/0 succeeds; the sequence err, exited/1 fails with code 1. -/
theorem wait_for_site_creation_terminal_states_witness :
    pollInterval * 2 < 300 ∧
    wait_for_site_creation
      (fun j => if j < 2 then PollResult.ok [Line.record "create-site" "running" (-1)]
        else PollResult.ok [Line.malformed, Line.record "create-site" "exited" 0]) 300 =
      WaitOutcome.success ∧
    wait_for_site_creation
      (fun j => if j < 1 then PollResult.err
        else PollResult.ok [Line.record "create-site" "exited" 1]) 300 =
      WaitOutcome.failed 1 :=
  ⟨by decide,
    (wait_for_site_creation_terminal_states
      (fun j => if j < 2 then PollResult.ok [Line.record "create-site" "running" (-1)]
        else PollResult.ok [Line.malformed, Line.record "create-site" "exited" 0]) 300 2
      (by decide) (by decide)).1 [Line.malformed] [] (by decide) rfl,
    (wait_for_site_creation_terminal_states
      (fun j => if j < 1 then PollResult.err
        else PollResult.ok [Line.record "create-site" "exited" 1]) 300 1
      (by decide) (by decide)).2.1 [] [] 1 (by decide) (by simp) rfl⟩

/-- C2: when every poll made before the deadline decides nothing, the
poller returns the timeout outcome, which is a different value from every
explicit-exit-code failure outcome. -/
theorem wait_for_site_creation_timeout (status : Nat → PollResult) (timeout : Nat)
    (h : ∀ i, pollInterval * i < timeout → pollStep (status i) = none) :
    wait_for_site_creation status timeout = WaitOutcome.timedOut ∧
    ∀ c : Int, WaitOutcome.timedOut ≠ WaitOutcome.failed c := by
  constructor
  · exact waitAux_timeout status timeout h (timeout + 1) 0
  · intro c hcontra
    cases hcontra

/-- Witness for C2: a status stream whose queries keep failing times out
after 9 seconds, and the timeout outcome differs from a failure with
code 1. -/
theorem wait_for_site_creation_timeout_witness :
    wait_for_site_creation (fun _ => PollResult.err) 9 = WaitOutcome.timedOut ∧
    WaitOutcome.timedOut ≠ WaitOutcome.failed 1 :=
  ⟨(wait_for_site_creation_timeout (fun _ => PollResult.err) 9 (fun _ _ => rfl)).1,
    (wait_for_site_creation_timeout (fun _ => PollResult.err) 9 (fun _ _ => rfl)).2 1⟩

theorem scanLines_filter (ls : List Line) :
    scanLines (ls.filter isJsonRecord) = scanLines ls := by
  induction ls with
  | nil => rfl
  | cons l ls ih =>
    cases l with
    | malformed => simpa [List.filter, isJsonRecord, scanLines] using ih
    | record s st c =>
      by_cases hs : s = "create-site"
      · by_cases ht : st = "exited"
        · simp [List.filter, isJsonRecord, scanLines, hs, ht]
        · simp [List.filter, isJsonRecord, scanLines, hs, ht, ih]
      · simp [List.filter, isJsonRecord, scanLines, hs, ih]

theorem pollStep_dropMalformed (p : PollResult) : pollStep (dropMalformed p) = pollStep p := by
  cases p with
  | err => rfl
  | ok lines => exact scanLines_filter lines

/-- C6: malformed status lines are invisible to the poller.  Scanning
skips each malformed line, and the whole run returns exactly what it
returns with every malformed line removed — so a malformed record never
aborts the loop or changes its result. -/
theorem wait_for_site_creation_skips_malformed :
    (∀ ls, scanLines (Line.malformed :: ls) = scanLines ls) ∧
    (∀ (status : Nat → PollResult) (timeout : Nat),
      wait_for_site_creation (fun i => dropMalformed (status i)) timeout =
        wait_for_site_creation status timeout) := by
  constructor
  · intro ls; rfl
  · intro status timeout
    have hgen : ∀ (f i : Nat), waitAux (fun i => dropMalformed (status i)) timeout f i =
        waitAux status timeout f i := by
      intro f
      induction f with
      | zero => intro i; rfl
      | succ f ihf =>
        intro i
        simp only [waitAux, pollStep_dropMalformed]
        cases pollStep (status i) with
        | none => simp only [ihf]
        | some d => rfl
    exact hgen (timeout + 1) 0

/-! ## Port discovery lemmas -/

theorem findPortGo_succ (occ : Int → Bool) (s : Int) (k t : Nat) :
    findPortGo occ s k (t + 1) =
      if occ (s + (k : Int)) then findPortGo occ s (k + 1) t else some (s + (k : Int)) := rfl

theorem findPortGo_none (occ : Int → Bool) (s : Int) :
    ∀ (tries k : Nat), (∀ j : Nat, j < tries → occ (s + (k : Int) + (j : Int)) = true) →
      findPortGo occ s k tries = none := by
  intro tries
  induction tries with
  | zero => intro k _; rfl
  | succ t ih =>
    intro k h
    rw [findPortGo_succ]
    have h0 : occ (s + (k : Int)) = true := by simpa using h 0 (by omega)
    simp only [h0, if_true]
    apply ih
    intro j hj
    have hsh := h (j + 1) (by omega)
    have harith : s + ((k : Nat) : Int) + (((j + 1 : Nat)) : Int) =
        s + (((k + 1 : Nat)) : Int) + ((j : Nat) : Int) := by push_cast; ring
    rw [harith] at hsh
    exact hsh

/-- C4: when the start port is occupied and its successor is free,
`find_available_port` returns the successor; when all 100 consecutive
ports in the range are occupied, it raises the no-port `RuntimeError`
instead of returning a port. -/
theorem find_available_port_spec (occupied : Int → Bool) (P : Int) :
    (occupied P = true → occupied (P + 1) = false →
      find_available_port occupied P 100 = Except.ok (P + 1)) ∧
    ((∀ k : Nat, k < 100 → occupied (P + (k : Int)) = true) →
      find_available_port occupied P 100 =
        Except.error ("No available port found in range " ++ toString P ++ "-"
          ++ toString (P + ((100 : Nat) : Int)))) := by
  constructor
  · intro h1 h2
    have step0 : findPortGo occupied P 0 100 = findPortGo occupied P 1 99 := by
      rw [show (100 : Nat) = 99 + 1 from rfl, findPortGo_succ]
      simp [h1]
    have step1 : findPortGo occupied P 1 99 = some (P + 1) := by
      rw [show (99 : Nat) = 98 + 1 from rfl, findPortGo_succ]
      simp [h2]
    have hval : findPortGo occupied P 0 100 = some (P + 1) := step0.trans step1
    unfold find_available_port
    rw [hval]
  · intro h
    have hnone : findPortGo occupied P 0 100 = none := by
      apply findPortGo_none
      intro j hj
      simpa using h j hj
    unfold find_available_port
    rw [hnone]

/-- Witness for C4: with exactly port 8080 occupied the search returns
8081; with every port occupied it returns the no-port error. -/
theorem find_available_port_spec_witness :
    find_available_port (fun q => decide (q = 8080)) 8080 100 = Except.ok (8080 + 1) ∧
    find_available_port (fun _ => true) 8080 100 =
      Except.error ("No available port found in range " ++ toString (8080 : Int) ++ "-"
        ++ toString ((8080 : Int) + ((100 : Nat) : Int))) :=
  ⟨(find_available_port_spec (fun q => decide (q = 8080)) 8080).1 (by decide) (by decide),
    (find_available_port_spec (fun _ => true) 8080).2 (fun _ _ => rfl)⟩

/-! ## Password lemmas -/

theorem secretsChoice_mem (r : Nat) : secretsChoice r ∈ alphabet := by
  unfold secretsChoice
  exact List.get_mem alphabet _ _

/-- C8: for every random stream and length `N`, `generate_password`
returns a string of length exactly `N`, every character of which is drawn
from the letters-and-digits alphabet (in particular each is a letter or a
digit). -/
theorem generate_password_spec (choices : Nat → Nat) (N : Nat) :
    (generate_password choices N).length = N ∧
    ∀ c ∈ (generate_password choices N).data,
      c ∈ alphabet ∧ (c.isAlpha || c.isDigit) = true := by
  have halpha : ∀ c ∈ alphabet, (c.isAlpha || c.isDigit) = true := by decide
  constructor
  · simp [generate_password, String.length]
  · intro c hc
    simp only [generate_password, String.data, List.mem_map, List.mem_range] at hc
    obtain ⟨i, _, hi⟩ := hc
    subst hi
    exact ⟨secretsChoice_mem _, halpha _ (secretsChoice_mem _)⟩

/-- Witness for C8: a concrete five-character password has length five,
and its first character is an alphabet letter. -/
theorem generate_password_spec_witness :
    (generate_password (fun i => i) 5).length = 5 ∧
    ('a' ∈ alphabet ∧ ('a'.isAlpha || 'a'.isDigit) = true) :=
  ⟨(generate_password_spec (fun i => i) 5).1,
    (generate_password_spec (fun i => i) 5).2 'a' (by decide)⟩

/-! ## Port selection in `main` (C9) -/

/-- C9 counterexample: the claim says an explicitly supplied port is used
unchanged with no availability probe.  But `main` tests `if args.port:`,
and `0` is falsy in Python, so `--port 0` triggers the automatic search:
with port 8080 occupied the script proceeds with 8081, not with the
supplied 0, and the result depends on occupancy (so the probe did run). -/
theorem portSelect_zero_counterexample :
    portSelect (some 0) (fun q => decide (q = 8080)) = Except.ok 8081 ∧
    portSelect (some 0) (fun _ => false) = Except.ok 8080 ∧
    (Except.ok 8081 : Except String Int) ≠ Except.ok 0 :=
  ⟨rfl, rfl, fun h => absurd (Except.ok.inj h) (by decide)⟩

/-- C9 amended: when the user supplies an explicit nonzero `--port`, the
script uses it unchanged and performs no availability probe (the result
does not depend on which ports are occupied, so an occupied port is
accepted); when no port is supplied — or when `--port 0` is supplied,
since the code tests the argument's truthiness — the automatic free-port
search from 8080 runs. -/
theorem portSelect_spec (p : Int) (occ : Int → Bool) :
    (p ≠ 0 → portSelect (some p) occ = Except.ok p) ∧
    portSelect none occ = find_available_port occ 8080 100 ∧
    portSelect (some 0) occ = find_available_port occ 8080 100 := by
  refine ⟨?_, rfl, rfl⟩
  intro hp
  simp [portSelect, pyTruthyInt, hp]

/-- Witness for C9 amended: port 8081 supplied explicitly is returned
unchanged even though every port is occupied. -/
theorem portSelect_spec_witness :
    portSelect (some 8081) (fun _ => true) = Except.ok 8081 :=
  (portSelect_spec 8081 (fun _ => true)).1 (by decide)

/-! ## Exit codes (C5) -/

/-- A run that completes every step: dependencies present, preset loads,
a port is found, clone, build and start succeed, and the `create-site`
container exits 0. -/
def successWorld : World :=
  { destroy := false, prompt := PromptOutcome.answer "yes", destroyOk := true, depsOk := true,
    preset := Except.ok [], portArg := some 8080, occupied := fun _ => false, cloneOk := true,
    buildOk := true, startOk := true,
    siteStatus := fun _ => PollResult.ok [Line.record "create-site" "exited" 0],
    interrupted := false, unexpected := false }

/-- A run where the dependency check fails. -/
def missingDepsWorld : World := { successWorld with depsOk := false }

/-- A run interrupted by the user during setup. -/
def interruptWorld : World := { successWorld with interrupted := true }

/-- A `--destroy` run where the user interrupts at the confirmation
prompt. -/
def interruptedDestroyWorld : World :=
  { successWorld with destroy := true, prompt := PromptOutcome.interrupt }

/-- C5 counterexample: the claim says the exit code is 130 whenever the
user interrupts the run.  But a `KeyboardInterrupt` at the `--destroy`
confirmation prompt is caught by `main` itself, printed as `Cancelled`,
and exits 0, not 130. -/
theorem script_exit_code_interrupt_counterexample :
    script_exit_code interruptedDestroyWorld = 0 ∧ (0 : Nat) ≠ 130 :=
  ⟨rfl, by decide⟩

/-- C5 amended: exit code 0 on success, 1 on every fatal failure (missing
dependency, invalid preset, no available port, clone failure, build
failure, service-start failure, initialization failure or timeout,
unexpected error), 130 when the user interrupts anywhere outside the
destroy confirmation prompt — but an interrupt at that prompt is caught
and exits 0 as a cancellation. -/
theorem script_exit_code_spec (w : World) :
    (w.destroy = false → w.interrupted = false → w.unexpected = false → w.depsOk = true →
      (∃ apps, w.preset = Except.ok apps) →
      (∃ p, portSelect w.portArg w.occupied = Except.ok p) →
      w.cloneOk = true → w.buildOk = true → w.startOk = true →
      wait_for_site_creation w.siteStatus 300 = WaitOutcome.success →
      script_exit_code w = 0) ∧
    (w.destroy = false → w.interrupted = false → w.unexpected = false → w.depsOk = false →
      script_exit_code w = 1) ∧
    (w.destroy = false → w.interrupted = false → w.unexpected = false →
      (∃ msg, w.preset = Except.error msg) → script_exit_code w = 1) ∧
    (w.destroy = false → w.interrupted = false → w.unexpected = false →
      (∃ msg, portSelect w.portArg w.occupied = Except.error msg) →
      script_exit_code w = 1) ∧
    (w.destroy = false → w.interrupted = false → w.unexpected = false →
      w.cloneOk = false → script_exit_code w = 1) ∧
    (w.destroy = false → w.interrupted = false → w.unexpected = false →
      w.buildOk = false → script_exit_code w = 1) ∧
    (w.destroy = false → w.interrupted = false → w.unexpected = false →
      w.startOk = false → script_exit_code w = 1) ∧
    (w.destroy = false → w.interrupted = false → w.unexpected = false →
      wait_for_site_creation w.siteStatus 300 ≠ WaitOutcome.success →
      script_exit_code w = 1) ∧
    (w.destroy = false → w.interrupted = false → w.unexpected = true →
      script_exit_code w = 1) ∧
    (w.destroy = false → w.interrupted = true → script_exit_code w = 130) ∧
    (w.destroy = true → w.prompt = PromptOutcome.interrupt → script_exit_code w = 0) := by
  refine ⟨?_, ?_, ?_, ?_, ?_, ?_, ?_, ?_, ?_, ?_, ?_⟩
  · intro h1 h2 h3 h4 h5 h6 h7 h8 h9 h10
    obtain ⟨apps, hap⟩ := h5
    obtain ⟨p, hp⟩ := h6
    simp [script_exit_code, mainRun, setupFlow, h1, h2, h3, h4, hap, hp, h7, h8, h9, h10]
  · intro h1 h2 h3 h4
    simp [script_exit_code, mainRun, setupFlow, h1, h2, h3, h4]
  · intro h1 h2 h3 h4
    obtain ⟨msg, hmsg⟩ := h4
    by_cases hdeps : w.depsOk
    · simp [script_exit_code, mainRun, setupFlow, h1, h2, h3, hdeps, hmsg]
    · simp [script_exit_code, mainRun, setupFlow, h1, h2, h3, hdeps]
  · intro h1 h2 h3 h4
    obtain ⟨msg, hmsg⟩ := h4
    by_cases hdeps : w.depsOk
    · cases hpre : w.preset with
      | error e => simp [script_exit_code, mainRun, setupFlow, h1, h2, h3, hdeps, hpre]
      | ok apps => simp [script_exit_code, mainRun, setupFlow, h1, h2, h3, hdeps, hpre, hmsg]
    · simp [script_exit_code, mainRun, setupFlow, h1, h2, h3, hdeps]
  · intro h1 h2 h3 h4
    by_cases hdeps : w.depsOk
    · cases hpre : w.preset with
      | error e => simp [script_exit_code, mainRun, setupFlow, h1, h2, h3, hdeps, hpre]
      | ok apps =>
        cases hport : portSelect w.portArg w.occupied with
        | error e => simp [script_exit_code, mainRun, setupFlow, h1, h2, h3, hdeps, hpre, hport]
        | ok p => simp [script_exit_code, mainRun, setupFlow, h1, h2, h3, hdeps, hpre, hport, h4]
    · simp [script_exit_code, mainRun, setupFlow, h1, h2, h3, hdeps]
  · intro h1 h2 h3 h4
    by_cases hdeps : w.depsOk
    · cases hpre : w.preset with
      | error e => simp [script_exit_code, mainRun, setupFlow, h1, h2, h3, hdeps, hpre]
      | ok apps =>
        cases hport : portSelect w.portArg w.occupied with
        | error e => simp [script_exit_code, mainRun, setupFlow, h1, h2, h3, hdeps, hpre, hport]
        | ok p =>
          by_cases hclone : w.cloneOk
          · simp [script_exit_code, mainRun, setupFlow, h1, h2, h3, hdeps, hpre, hport, hclone, h4]
          · simp [script_exit_code, mainRun, setupFlow, h1, h2, h3, hdeps, hpre, hport, hclone]
    · simp [script_exit_code, mainRun, setupFlow, h1, h2, h3, hdeps]
  · intro h1 h2 h3 h4
    by_cases hdeps : w.depsOk
    · cases hpre : w.preset with
      | error e => simp [script_exit_code, mainRun, setupFlow, h1, h2, h3, hdeps, hpre]
      | ok apps =>
        cases hport : portSelect w.portArg w.occupied with
        | error e => simp [script_exit_code, mainRun, setupFlow, h1, h2, h3, hdeps, hpre, hport]
        | ok p =>
          by_cases hclone : w.cloneOk
          · by_cases hbuild : w.buildOk
            · simp [script_exit_code, mainRun, setupFlow, h1, h2, h3, hdeps, hpre, hport,
                hclone, hbuild, h4]
            · simp [script_exit_code, mainRun, setupFlow, h1, h2, h3, hdeps, hpre, hport,
                hclone, hbuild]
          · simp [script_exit_code, mainRun, setupFlow, h1, h2, h3, hdeps, hpre, hport, hclone]
    · simp [script_exit_code, mainRun, setupFlow, h1, h2, h3, hdeps]
  · intro h1 h2 h3 h4
    by_cases hdeps : w.depsOk
    · cases hpre : w.preset with
      | error e => simp [script_exit_code, mainRun, setupFlow, h1, h2, h3, hdeps, hpre]
      | ok apps =>
        cases hport : portSelect w.portArg w.occupied with
        | error e => simp [script_exit_code, mainRun, setupFlow, h1, h2, h3, hdeps, hpre, hport]
        | ok p =>
          by_cases hclone : w.cloneOk
          · by_cases hbuild : w.buildOk
            · by_cases hstart : w.startOk
              · cases hsite : wait_for_site_creation w.siteStatus 300 with
                | success => exact absurd hsite h4
                | failed c =>
                  simp [script_exit_code, mainRun, setupFlow, h1, h2, h3, hdeps, hpre, hport,
                    hclone, hbuild, hstart, hsite]
                | timedOut =>
                  simp [script_exit_code, mainRun, setupFlow, h1, h2, h3, hdeps, hpre, hport,
                    hclone, hbuild, hstart, hsite]
              · simp [script_exit_code, mainRun, setupFlow, h1, h2, h3, hdeps, hpre, hport,
                  hclone, hbuild, hstart]
            · simp [script_exit_code, mainRun, setupFlow, h1, h2, h3, hdeps, hpre, hport,
                hclone, hbuild]
          · simp [script_exit_code, mainRun, setupFlow, h1, h2, h3, hdeps, hpre, hport, hclone]
    · simp [script_exit_code, mainRun, setupFlow, h1, h2, h3, hdeps]
  · intro h1 h2 h3
    simp [script_exit_code, mainRun, h1, h2, h3]
  · intro h1 h2
    simp [script_exit_code, mainRun, h1, h2]
  · intro h1 h2
    simp [script_exit_code, mainRun, destroyFlow, h1, h2]

/-- Witness for C5 amended: a fully successful run exits 0, a missing
dependency exits 1, an interrupt during setup exits 130, and an interrupt
at the destroy prompt exits 0. -/
theorem script_exit_code_spec_witness :
    script_exit_code successWorld = 0 ∧ script_exit_code missingDepsWorld = 1 ∧
    script_exit_code interruptWorld = 130 ∧ script_exit_code interruptedDestroyWorld = 0 :=
  ⟨(script_exit_code_spec successWorld).1 rfl rfl rfl rfl ⟨[], rfl⟩ ⟨8080, rfl⟩ rfl rfl rfl
      (by decide),
    (script_exit_code_spec missingDepsWorld).2.1 rfl rfl rfl rfl,
    (script_exit_code_spec interruptWorld).2.2.2.2.2.2.2.2.2.1 rfl rfl,
    (script_exit_code_spec interruptedDestroyWorld).2.2.2.2.2.2.2.2.2.2 rfl rfl⟩

/-! ## App-name derivation (C3) -/

theorem removeDotGit_cons4 (c1 c2 c3 c4 : Char) (rest : List Char) :
    removeDotGit (c1 :: c2 :: c3 :: c4 :: rest) =
      if c1 = '.' ∧ c2 = 'g' ∧ c3 = 'i' ∧ c4 = 't' then removeDotGit rest
      else c1 :: removeDotGit (c2 :: c3 :: c4 :: rest) := rfl

theorem hasDotGit_cons4 (c1 c2 c3 c4 : Char) (rest : List Char) :
    hasDotGit (c1 :: c2 :: c3 :: c4 :: rest) =
      if c1 = '.' ∧ c2 = 'g' ∧ c3 = 'i' ∧ c4 = 't' then true
      else hasDotGit (c2 :: c3 :: c4 :: rest) := rfl

/-- When `.git` does not occur in `base`, removing every occurrence of
`.git` from `base ++ ".git"` strips exactly the suffix. -/
theorem removeDotGit_append_dotgit :
    ∀ (base : List Char), hasDotGit base = false →
      removeDotGit (base ++ ['.', 'g', 'i', 't']) = base := by
  have main : ∀ (n : Nat) (base : List Char), base.length ≤ n → hasDotGit base = false →
      removeDotGit (base ++ ['.', 'g', 'i', 't']) = base := by
    intro n
    induction n with
    | zero =>
      intro base hlen _
      have hb : base = [] := List.length_eq_zero.mp (Nat.le_zero.mp hlen)
      subst hb
      rfl
    | succ n ih =>
      intro base hlen h
      rcases base with _ | ⟨c1, _ | ⟨c2, _ | ⟨c3, _ | ⟨c4, rest⟩⟩⟩⟩
      · rfl
      · simp only [List.cons_append, List.nil_append]
        rw [removeDotGit_cons4, if_neg (fun hc => absurd hc.2.1 (by decide))]
        rw [show removeDotGit ('.' :: 'g' :: 'i' :: 't' :: []) = [] from rfl]
      · have h2 := ih [c2] (by simp at hlen ⊢; omega) rfl
        simp only [List.cons_append, List.nil_append] at h2 ⊢
        rw [removeDotGit_cons4, if_neg (fun hc => absurd hc.2.2.1 (by decide))]
        rw [h2]
      · have h3 := ih [c2, c3] (by simp at hlen ⊢; omega) rfl
        simp only [List.cons_append, List.nil_append] at h3 ⊢
        rw [removeDotGit_cons4, if_neg (fun hc => absurd hc.2.2.2 (by decide))]
        rw [h3]
      · have hcond : ¬ (c1 = '.' ∧ c2 = 'g' ∧ c3 = 'i' ∧ c4 = 't') := by
          intro hc
          rw [hasDotGit_cons4, if_pos hc] at h
          exact absurd h (by decide)
        have htail : hasDotGit (c2 :: c3 :: c4 :: rest) = false := by
          rwa [hasDotGit_cons4, if_neg hcond] at h
        have h4 := ih (c2 :: c3 :: c4 :: rest) (by simp at hlen ⊢; omega) htail
        simp only [List.cons_append] at h4 ⊢
        rw [removeDotGit_cons4, if_neg hcond, h4]
  intro base
  exact main base.length base (le_refl _)

/-- C3 counterexample: the claim says the derived name is the final path
segment with the `.git` suffix stripped.  But the code uses
`str.replace('.git', '')`, which removes every occurrence: for the source
`https://example/org/app.gitx` the code derives `appx`, while
suffix-stripping the final segment leaves `app.gitx`. -/
theorem derive_app_name_counterexample :
    derive_app_name (lit "https://example/org/app.gitx") = lit "appx" ∧
    spec_derived_name (lit "https://example/org/app.gitx") = lit "app.gitx" ∧
    lit "appx" ≠ lit "app.gitx" :=
  ⟨by decide, by decide, by decide⟩

/-- C3 amended: the derived repository name is the final path segment of
the source URL (after trailing-slash stripping) with every occurrence of
`.git` removed — which agrees with stripping the version-control suffix
whenever `.git` occurs only as a suffix, and in particular derives `app`
from `https://example/org/app.git`.  The same derivation is used for the
install list written to the environment file (which keeps the nonempty
names) and for the clone target directory. -/
theorem derive_app_name_spec (apps : List AppDescriptor) (base : List Char)
    (app : AppDescriptor) :
    envAppNames apps =
      (apps.map (fun a => derive_app_name (a.url.getD []))).filter (fun n => !n.isEmpty) ∧
    clone_target_dir app = lit "apps/" ++ derive_app_name (app.url.getD []) ∧
    (hasDotGit base = false → removeDotGit (base ++ ['.', 'g', 'i', 't']) = base) ∧
    derive_app_name (lit "https://example/org/app.git") = lit "app" := by
  refine ⟨?_, rfl, removeDotGit_append_dotgit base, by decide⟩
  induction apps with
  | nil => rfl
  | cons a apps ih =>
    by_cases hn : derive_app_name (a.url.getD []) = []
    · simp [envAppNames, List.filter_cons, hn, ih]
    · simp [envAppNames, List.filter_cons, hn, ih, List.isEmpty_iff]

/-- Witness for C3 amended: with the clean base `app`, removing all
occurrences of `.git` from `app.git` yields `app`. -/
theorem derive_app_name_spec_witness :
    hasDotGit (lit "app") = false ∧
    removeDotGit (lit "app" ++ ['.', 'g', 'i', 't']) = lit "app" :=
  ⟨by decide,
    (derive_app_name_spec [] (lit "app") ⟨none, none⟩).2.2.1 (by decide)⟩

/-! ## Line-splitting and lookup lemmas for the environment file -/

theorem splitOnChar_cons_sep (sep : Char) (ys : List Char) :
    splitOnChar sep (sep :: ys) = [] :: splitOnChar sep ys := by
  simp [splitOnChar]

theorem splitOnChar_chunk (sep : Char) (xs ys : List Char) (h : sep ∉ xs) :
    splitOnChar sep (xs ++ sep :: ys) = xs :: splitOnChar sep ys := by
  induction xs with
  | nil => simpa using splitOnChar_cons_sep sep ys
  | cons c xs ih =>
    have hc : ¬ c = sep := fun hcc => h (hcc ▸ List.mem_cons_self c xs)
    have hxs : sep ∉ xs := fun hx => h (List.mem_cons_of_mem c hx)
    simp [splitOnChar, hc, ih hxs]

theorem splitOnChar_single (sep : Char) (xs : List Char) (h : sep ∉ xs) :
    splitOnChar sep xs = [xs] := by
  induction xs with
  | nil => rfl
  | cons c xs ih =>
    have hc : ¬ c = sep := fun hcc => h (hcc ▸ List.mem_cons_self c xs)
    have hxs : sep ∉ xs := fun hx => h (List.mem_cons_of_mem c hx)
    simp [splitOnChar, hc, ih hxs]

theorem splitOnChar_joinLines (ls : List (List Char)) (hne : ls ≠ [])
    (h : ∀ l ∈ ls, '\n' ∉ l) : splitOnChar '\n' (joinLines ls) = ls := by
  induction ls with
  | nil => exact absurd rfl hne
  | cons l ls ih =>
    cases ls with
    | nil => exact splitOnChar_single '\n' l (h l (List.mem_cons_self _ _))
    | cons l2 ls2 =>
      show splitOnChar '\n' (l ++ '\n' :: joinLines (l2 :: ls2)) = l :: l2 :: ls2
      rw [splitOnChar_chunk '\n' l _ (h l (List.mem_cons_self _ _))]
      rw [ih (List.cons_ne_nil _ _) (fun x hx => h x (List.mem_cons_of_mem _ hx))]

theorem not_mem_append_of (a : Char) (s t : List Char) (h1 : a ∉ s) (h2 : a ∉ t) :
    a ∉ s ++ t := by
  intro hmem
  rcases List.mem_append.mp hmem with h | h
  · exact h1 h
  · exact h2 h

theorem isPrefixOf_append_eq_false (p a var : List Char) (h1 : p.isPrefixOf a = false)
    (h2 : a.isPrefixOf p = false) : p.isPrefixOf (a ++ var) = false := by
  induction a generalizing p with
  | nil => simp [List.isPrefixOf] at h2
  | cons c a ih =>
    cases p with
    | nil => simp [List.isPrefixOf] at h1
    | cons q p =>
      by_cases hqc : q = c
      · subst hqc
        simp only [List.cons_append, List.isPrefixOf, beq_self_eq_true, Bool.true_and]
          at h1 h2 ⊢
        exact ih p h1 h2
      · have hb : (q == c) = false := beq_eq_false_iff_ne.mpr hqc
        simp [List.cons_append, List.isPrefixOf, hb]

theorem findValue_skip (key l : List Char) (ls : List (List Char))
    (h : (key ++ ['=']).isPrefixOf l = false) :
    findValue key (l :: ls) = findValue key ls := by
  simp [findValue, h]

theorem findValue_hit (key var : List Char) (ls : List (List Char)) :
    findValue key (((key ++ ['=']) ++ var) :: ls) = some var := by
  have hpre : (key ++ ['=']).isPrefixOf ((key ++ ['=']) ++ var) = true :=
    List.isPrefixOf_iff_prefix.mpr (List.prefix_append _ _)
  have hlen : key.length + 1 = (key ++ ['=']).length := by simp
  simp only [findValue, hpre, if_true]
  rw [hlen, List.drop_left]

/-! ## Decimal rendering contains no newline -/

theorem digitChars_getD_mem (i : Nat) : digitChars.getD i '0' ∈ digitChars := by
  by_cases hi : i < digitChars.length
  · rw [List.getD_eq_getElem _ _ hi]
    exact List.getElem_mem _
  · rw [List.getD_eq_default _ _ (le_of_not_lt hi)]
    decide

theorem natDigitsAux_mem : ∀ (fuel n : Nat), ∀ c ∈ natDigitsAux fuel n, c ∈ digitChars := by
  intro fuel
  induction fuel with
  | zero => intro n c hc; simp [natDigitsAux] at hc
  | succ fuel ih =>
    intro n c hc
    by_cases hn : n < 10
    · simp only [natDigitsAux, hn, if_true, List.mem_singleton] at hc
      rw [hc]
      exact digitChars_getD_mem n
    · simp only [natDigitsAux, hn, if_false, List.mem_append, List.mem_singleton] at hc
      rcases hc with hc | hc
      · exact ih _ c hc
      · rw [hc]
        exact digitChars_getD_mem _

theorem newline_not_mem_natDigits (n : Nat) : '\n' ∉ natDigits n := by
  intro h
  exact absurd (natDigitsAux_mem (n + 1) n _ h) (by decide)

theorem newline_not_mem_intToString (p : Int) : '\n' ∉ intToString p := by
  cases p with
  | ofNat n => exact newline_not_mem_natDigits n
  | negSucc n =>
    intro h
    rcases List.mem_cons.mp h with h | h
    · exact absurd h (by decide)
    · exact newline_not_mem_natDigits _ h

/-! ## The environment file, line by line -/

theorem create_env_file_lines (port : Int) (admin db preset version : List Char)
    (apps : List AppDescriptor) :
    create_env_file port admin db preset version apps = joinLines [
      lit "# Frappe Configuration",
      (lit "FRAPPE_VERSION" ++ ['=']) ++ version,
      lit "SITE_NAME=frontend",
      [],
      lit "# Security - Auto-generated by start.py",
      (lit "ADMIN_PASSWORD" ++ ['=']) ++ admin,
      (lit "DB_ROOT_PASSWORD" ++ ['=']) ++ db,
      (lit "MYSQL_ROOT_PASSWORD" ++ ['=']) ++ db,
      (lit "MARIADB_ROOT_PASSWORD" ++ ['=']) ++ db,
      [],
      lit "# Network Configuration",
      (lit "PORT" ++ ['=']) ++ intToString port,
      [],
      lit "# Docker Configuration",
      lit "PROJECT_NAME=frappe_quickstart",
      lit "IMAGE_NAME=frappe_quickstart:latest",
      [],
      lit "# Preset used",
      (lit "PRESET" ++ ['=']) ++ preset,
      [],
      lit "# Apps to install (comma-separated)",
      (lit "INSTALL_APPS" ++ ['=']) ++ installApps apps,
      [] ] := by
  have e1 : lit "# Frappe Configuration\nFRAPPE_VERSION=" =
      lit "# Frappe Configuration" ++ ('\n' :: (lit "FRAPPE_VERSION" ++ ['='])) := by decide
  have e2 : lit "\nSITE_NAME=frontend\n\n# Security - Auto-generated by start.py\nADMIN_PASSWORD=" =
      '\n' :: (lit "SITE_NAME=frontend" ++ ('\n' :: ('\n' ::
        (lit "# Security - Auto-generated by start.py" ++
          ('\n' :: (lit "ADMIN_PASSWORD" ++ ['='])))))) := by decide
  have e3 : lit "\nDB_ROOT_PASSWORD=" = '\n' :: (lit "DB_ROOT_PASSWORD" ++ ['=']) := by decide
  have e4 : lit "\nMYSQL_ROOT_PASSWORD=" =
      '\n' :: (lit "MYSQL_ROOT_PASSWORD" ++ ['=']) := by decide
  have e5 : lit "\nMARIADB_ROOT_PASSWORD=" =
      '\n' :: (lit "MARIADB_ROOT_PASSWORD" ++ ['=']) := by decide
  have e6 : lit "\n\n# Network Configuration\nPORT=" =
      '\n' :: ('\n' :: (lit "# Network Configuration" ++
        ('\n' :: (lit "PORT" ++ ['='])))) := by decide
  have e7 : lit "\n\n# Docker Configuration\nPROJECT_NAME=frappe_quickstart\nIMAGE_NAME=frappe_quickstart:latest\n\n# Preset used\nPRESET=" =
      '\n' :: ('\n' :: (lit "# Docker Configuration" ++
        ('\n' :: (lit "PROJECT_NAME=frappe_quickstart" ++
          ('\n' :: (lit "IMAGE_NAME=frappe_quickstart:latest" ++
            ('\n' :: ('\n' :: (lit "# Preset used" ++
              ('\n' :: (lit "PRESET" ++ ['=']))))))))))) := by decide
  have e8 : lit "\n\n# Apps to install (comma-separated)\nINSTALL_APPS=" =
      '\n' :: ('\n' :: (lit "# Apps to install (comma-separated)" ++
        ('\n' :: (lit "INSTALL_APPS" ++ ['='])))) := by decide
  have e9 : lit "\n" = ['\n'] := by decide
  unfold create_env_file
  rw [e1, e2, e3, e4, e5, e6, e7, e8, e9]
  simp only [joinLines, List.append_assoc, List.cons_append, List.nil_append]

/-- Reading any key back from the written content searches the written
lines, provided no spliced-in value smuggles in a newline. -/
theorem envLookup_lines (port : Int) (admin db preset version : List Char)
    (apps : List AppDescriptor) (hadmin : '\n' ∉ admin) (hdb : '\n' ∉ db)
    (hpreset : '\n' ∉ preset) (hversion : '\n' ∉ version)
    (happs : '\n' ∉ installApps apps) (key : List Char) :
    envLookup key (create_env_file port admin db preset version apps) = findValue key [
      lit "# Frappe Configuration",
      (lit "FRAPPE_VERSION" ++ ['=']) ++ version,
      lit "SITE_NAME=frontend",
      [],
      lit "# Security - Auto-generated by start.py",
      (lit "ADMIN_PASSWORD" ++ ['=']) ++ admin,
      (lit "DB_ROOT_PASSWORD" ++ ['=']) ++ db,
      (lit "MYSQL_ROOT_PASSWORD" ++ ['=']) ++ db,
      (lit "MARIADB_ROOT_PASSWORD" ++ ['=']) ++ db,
      [],
      lit "# Network Configuration",
      (lit "PORT" ++ ['=']) ++ intToString port,
      [],
      lit "# Docker Configuration",
      lit "PROJECT_NAME=frappe_quickstart",
      lit "IMAGE_NAME=frappe_quickstart:latest",
      [],
      lit "# Preset used",
      (lit "PRESET" ++ ['=']) ++ preset,
      [],
      lit "# Apps to install (comma-separated)",
      (lit "INSTALL_APPS" ++ ['=']) ++ installApps apps,
      [] ] := by
  have hnl : ∀ l ∈ [
      lit "# Frappe Configuration",
      (lit "FRAPPE_VERSION" ++ ['=']) ++ version,
      lit "SITE_NAME=frontend",
      ([] : List Char),
      lit "# Security - Auto-generated by start.py",
      (lit "ADMIN_PASSWORD" ++ ['=']) ++ admin,
      (lit "DB_ROOT_PASSWORD" ++ ['=']) ++ db,
      (lit "MYSQL_ROOT_PASSWORD" ++ ['=']) ++ db,
      (lit "MARIADB_ROOT_PASSWORD" ++ ['=']) ++ db,
      [],
      lit "# Network Configuration",
      (lit "PORT" ++ ['=']) ++ intToString port,
      [],
      lit "# Docker Configuration",
      lit "PROJECT_NAME=frappe_quickstart",
      lit "IMAGE_NAME=frappe_quickstart:latest",
      [],
      lit "# Preset used",
      (lit "PRESET" ++ ['=']) ++ preset,
      [],
      lit "# Apps to install (comma-separated)",
      (lit "INSTALL_APPS" ++ ['=']) ++ installApps apps,
      [] ], '\n' ∉ l := by
    simp only [List.forall_mem_cons]
    refine ⟨by decide, not_mem_append_of _ _ _ (by decide) hversion, by decide, by decide,
      by decide, not_mem_append_of _ _ _ (by decide) hadmin,
      not_mem_append_of _ _ _ (by decide) hdb, not_mem_append_of _ _ _ (by decide) hdb,
      not_mem_append_of _ _ _ (by decide) hdb, by decide, by decide,
      not_mem_append_of _ _ _ (by decide) (newline_not_mem_intToString port), by decide,
      by decide, by decide, by decide, by decide, by decide,
      not_mem_append_of _ _ _ (by decide) hpreset, by decide, by decide,
      not_mem_append_of _ _ _ (by decide) happs, by decide, by simp⟩
  unfold envLookup
  rw [create_env_file_lines]
  rw [splitOnChar_joinLines _ (List.cons_ne_nil _ _) hnl]

/-- C7: the environment file written by `create_env_file` round-trips the
supplied port, preset and Frappe version: looking the `PORT`, `PRESET`
and `FRAPPE_VERSION` keys back up in the written key=value content yields
exactly the supplied inputs (rendered by `str` for the integer port), for
every choice of single-line inputs. -/
theorem create_env_file_roundtrip (port : Int) (admin db preset version : List Char)
    (apps : List AppDescriptor) (hadmin : '\n' ∉ admin) (hdb : '\n' ∉ db)
    (hpreset : '\n' ∉ preset) (hversion : '\n' ∉ version)
    (happs : '\n' ∉ installApps apps) :
    envLookup (lit "FRAPPE_VERSION") (create_env_file port admin db preset version apps) =
      some version ∧
    envLookup (lit "PORT") (create_env_file port admin db preset version apps) =
      some (intToString port) ∧
    envLookup (lit "PRESET") (create_env_file port admin db preset version apps) =
      some preset := by
  refine ⟨?_, ?_, ?_⟩
  · rw [envLookup_lines port admin db preset version apps hadmin hdb hpreset hversion happs]
    rw [findValue_skip (lit "FRAPPE_VERSION") (lit "# Frappe Configuration") _ (by decide)]
    exact findValue_hit _ _ _
  · rw [envLookup_lines port admin db preset version apps hadmin hdb hpreset hversion happs]
    rw [findValue_skip (lit "PORT") (lit "# Frappe Configuration") _ (by decide)]
    rw [findValue_skip (lit "PORT") ((lit "FRAPPE_VERSION" ++ ['=']) ++ version) _
      (isPrefixOf_append_eq_false _ _ _ (by decide) (by decide))]
    rw [findValue_skip (lit "PORT") (lit "SITE_NAME=frontend") _ (by decide)]
    rw [findValue_skip (lit "PORT") [] _ (by decide)]
    rw [findValue_skip (lit "PORT") (lit "# Security - Auto-generated by start.py") _
      (by decide)]
    rw [findValue_skip (lit "PORT") ((lit "ADMIN_PASSWORD" ++ ['=']) ++ admin) _
      (isPrefixOf_append_eq_false _ _ _ (by decide) (by decide))]
    rw [findValue_skip (lit "PORT") ((lit "DB_ROOT_PASSWORD" ++ ['=']) ++ db) _
      (isPrefixOf_append_eq_false _ _ _ (by decide) (by decide))]
    rw [findValue_skip (lit "PORT") ((lit "MYSQL_ROOT_PASSWORD" ++ ['=']) ++ db) _
      (isPrefixOf_append_eq_false _ _ _ (by decide) (by decide))]
    rw [findValue_skip (lit "PORT") ((lit "MARIADB_ROOT_PASSWORD" ++ ['=']) ++ db) _
      (isPrefixOf_append_eq_false _ _ _ (by decide) (by decide))]
    rw [findValue_skip (lit "PORT") [] _ (by decide)]
    rw [findValue_skip (lit "PORT") (lit "# Network Configuration") _ (by decide)]
    exact findValue_hit _ _ _
  · rw [envLookup_lines port admin db preset version apps hadmin hdb hpreset hversion happs]
    rw [findValue_skip (lit "PRESET") (lit "# Frappe Configuration") _ (by decide)]
    rw [findValue_skip (lit "PRESET") ((lit "FRAPPE_VERSION" ++ ['=']) ++ version) _
      (isPrefixOf_append_eq_false _ _ _ (by decide) (by decide))]
    rw [findValue_skip (lit "PRESET") (lit "SITE_NAME=frontend") _ (by decide)]
    rw [findValue_skip (lit "PRESET") [] _ (by decide)]
    rw [findValue_skip (lit "PRESET") (lit "# Security - Auto-generated by start.py") _
      (by decide)]
    rw [findValue_skip (lit "PRESET") ((lit "ADMIN_PASSWORD" ++ ['=']) ++ admin) _
      (isPrefixOf_append_eq_false _ _ _ (by decide) (by decide))]
    rw [findValue_skip (lit "PRESET") ((lit "DB_ROOT_PASSWORD" ++ ['=']) ++ db) _
      (isPrefixOf_append_eq_false _ _ _ (by decide) (by decide))]
    rw [findValue_skip (lit "PRESET") ((lit "MYSQL_ROOT_PASSWORD" ++ ['=']) ++ db) _
      (isPrefixOf_append_eq_false _ _ _ (by decide) (by decide))]
    rw [findValue_skip (lit "PRESET") ((lit "MARIADB_ROOT_PASSWORD" ++ ['=']) ++ db) _
      (isPrefixOf_append_eq_false _ _ _ (by decide) (by decide))]
    rw [findValue_skip (lit "PRESET") [] _ (by decide)]
    rw [findValue_skip (lit "PRESET") (lit "# Network Configuration") _ (by decide)]
    rw [findValue_skip (lit "PRESET") ((lit "PORT" ++ ['=']) ++ intToString port) _
      (isPrefixOf_append_eq_false _ _ _ (by decide) (by decide))]
    rw [findValue_skip (lit "PRESET") [] _ (by decide)]
    rw [findValue_skip (lit "PRESET") (lit "# Docker Configuration") _ (by decide)]
    rw [findValue_skip (lit "PRESET") (lit "PROJECT_NAME=frappe_quickstart") _ (by decide)]
    rw [findValue_skip (lit "PRESET") (lit "IMAGE_NAME=frappe_quickstart:latest") _
      (by decide)]
    rw [findValue_skip (lit "PRESET") [] _ (by decide)]
    rw [findValue_skip (lit "PRESET") (lit "# Preset used") _ (by decide)]
    exact findValue_hit _ _ _

/-- Witness for C7: a concrete environment file round-trips port 8080,
preset `erp` and version `version-15`. -/
theorem create_env_file_roundtrip_witness :
    envLookup (lit "FRAPPE_VERSION")
      (create_env_file 8080 (lit "adminpw") (lit "dbpw") (lit "erp") (lit "version-15") []) =
      some (lit "version-15") ∧
    envLookup (lit "PORT")
      (create_env_file 8080 (lit "adminpw") (lit "dbpw") (lit "erp") (lit "version-15") []) =
      some (intToString 8080) ∧
    envLookup (lit "PRESET")
      (create_env_file 8080 (lit "adminpw") (lit "dbpw") (lit "erp") (lit "version-15") []) =
      some (lit "erp") :=
  create_env_file_roundtrip 8080 (lit "adminpw") (lit "dbpw") (lit "erp") (lit "version-15")
    [] (by decide) (by decide) (by decide) (by decide) (by decide)

/-- C10: the three database credential keys `DB_ROOT_PASSWORD`,
`MYSQL_ROOT_PASSWORD` and `MARIADB_ROOT_PASSWORD` of the written
environment file all carry the same `db_password` input, while the
distinct `ADMIN_PASSWORD` key carries the `admin_password` input. -/
theorem create_env_file_credentials (port : Int) (admin db preset version : List Char)
    (apps : List AppDescriptor) (hadmin : '\n' ∉ admin) (hdb : '\n' ∉ db)
    (hpreset : '\n' ∉ preset) (hversion : '\n' ∉ version)
    (happs : '\n' ∉ installApps apps) :
    envLookup (lit "ADMIN_PASSWORD") (create_env_file port admin db preset version apps) =
      some admin ∧
    envLookup (lit "DB_ROOT_PASSWORD") (create_env_file port admin db preset version apps) =
      some db ∧
    envLookup (lit "MYSQL_ROOT_PASSWORD") (create_env_file port admin db preset version apps) =
      some db ∧
    envLookup (lit "MARIADB_ROOT_PASSWORD")
      (create_env_file port admin db preset version apps) = some db := by
  have hstart : ∀ key : List Char,
      (key ++ ['=']).isPrefixOf (lit "# Frappe Configuration") = false →
      (key ++ ['=']).isPrefixOf (lit "FRAPPE_VERSION" ++ ['=']) = false →
      (lit "FRAPPE_VERSION" ++ ['=']).isPrefixOf (key ++ ['=']) = false →
      (key ++ ['=']).isPrefixOf (lit "SITE_NAME=frontend") = false →
      (key ++ ['=']).isPrefixOf [] = false →
      (key ++ ['=']).isPrefixOf (lit "# Security - Auto-generated by start.py") = false →
      envLookup key (create_env_file port admin db preset version apps) = findValue key
        (((lit "ADMIN_PASSWORD" ++ ['=']) ++ admin) ::
          ((lit "DB_ROOT_PASSWORD" ++ ['=']) ++ db) ::
          ((lit "MYSQL_ROOT_PASSWORD" ++ ['=']) ++ db) ::
          ((lit "MARIADB_ROOT_PASSWORD" ++ ['=']) ++ db) ::
          [] :: lit "# Network Configuration" ::
          ((lit "PORT" ++ ['=']) ++ intToString port) ::
          [] :: lit "# Docker Configuration" :: lit "PROJECT_NAME=frappe_quickstart" ::
          lit "IMAGE_NAME=frappe_quickstart:latest" :: [] :: lit "# Preset used" ::
          ((lit "PRESET" ++ ['=']) ++ preset) :: [] ::
          lit "# Apps to install (comma-separated)" ::
          ((lit "INSTALL_APPS" ++ ['=']) ++ installApps apps) :: [] :: []) := by
    intro key h1 h2 h3 h4 h5 h6
    rw [envLookup_lines port admin db preset version apps hadmin hdb hpreset hversion happs]
    rw [findValue_skip key (lit "# Frappe Configuration") _ h1]
    rw [findValue_skip key ((lit "FRAPPE_VERSION" ++ ['=']) ++ version) _
      (isPrefixOf_append_eq_false _ _ _ h2 h3)]
    rw [findValue_skip key (lit "SITE_NAME=frontend") _ h4]
    rw [findValue_skip key [] _ h5]
    rw [findValue_skip key (lit "# Security - Auto-generated by start.py") _ h6]
  refine ⟨?_, ?_, ?_, ?_⟩
  · rw [hstart (lit "ADMIN_PASSWORD") (by decide) (by decide) (by decide) (by decide)
      (by decide) (by decide)]
    exact findValue_hit _ _ _
  · rw [hstart (lit "DB_ROOT_PASSWORD") (by decide) (by decide) (by decide) (by decide)
      (by decide) (by decide)]
    rw [findValue_skip (lit "DB_ROOT_PASSWORD") ((lit "ADMIN_PASSWORD" ++ ['=']) ++ admin) _
      (isPrefixOf_append_eq_false _ _ _ (by decide) (by decide))]
    exact findValue_hit _ _ _
  · rw [hstart (lit "MYSQL_ROOT_PASSWORD") (by decide) (by decide) (by decide) (by decide)
      (by decide) (by decide)]
    rw [findValue_skip (lit "MYSQL_ROOT_PASSWORD") ((lit "ADMIN_PASSWORD" ++ ['=']) ++ admin)
      _ (isPrefixOf_append_eq_false _ _ _ (by decide) (by decide))]
    rw [findValue_skip (lit "MYSQL_ROOT_PASSWORD") ((lit "DB_ROOT_PASSWORD" ++ ['=']) ++ db)
      _ (isPrefixOf_append_eq_false _ _ _ (by decide) (by decide))]
    exact findValue_hit _ _ _
  · rw [hstart (lit "MARIADB_ROOT_PASSWORD") (by decide) (by decide) (by decide) (by decide)
      (by decide) (by decide)]
    rw [findValue_skip (lit "MARIADB_ROOT_PASSWORD")
      ((lit "ADMIN_PASSWORD" ++ ['=']) ++ admin) _
      (isPrefixOf_append_eq_false _ _ _ (by decide) (by decide))]
    rw [findValue_skip (lit "MARIADB_ROOT_PASSWORD")
      ((lit "DB_ROOT_PASSWORD" ++ ['=']) ++ db) _
      (isPrefixOf_append_eq_false _ _ _ (by decide) (by decide))]
    rw [findValue_skip (lit "MARIADB_ROOT_PASSWORD")
      ((lit "MYSQL_ROOT_PASSWORD" ++ ['=']) ++ db) _
      (isPrefixOf_append_eq_false _ _ _ (by decide) (by decide))]
    exact findValue_hit _ _ _

/-- Witness for C10: in a concrete environment file the three database
credential keys all read back `dbpw` and `ADMIN_PASSWORD` reads back
`adminpw`. -/
theorem create_env_file_credentials_witness :
    envLookup (lit "ADMIN_PASSWORD")
      (create_env_file 8080 (lit "adminpw") (lit "dbpw") (lit "erp") (lit "version-15") []) =
      some (lit "adminpw") ∧
    envLookup (lit "DB_ROOT_PASSWORD")
      (create_env_file 8080 (lit "adminpw") (lit "dbpw") (lit "erp") (lit "version-15") []) =
      some (lit "dbpw") ∧
    envLookup (lit "MYSQL_ROOT_PASSWORD")
      (create_env_file 8080 (lit "adminpw") (lit "dbpw") (lit "erp") (lit "version-15") []) =
      some (lit "dbpw") ∧
    envLookup (lit "MARIADB_ROOT_PASSWORD")
      (create_env_file 8080 (lit "adminpw") (lit "dbpw") (lit "erp") (lit "version-15") []) =
      some (lit "dbpw") :=
  create_env_file_credentials 8080 (lit "adminpw") (lit "dbpw") (lit "erp") (lit "version-15")
    [] (by decide) (by decide) (by decide) (by decide) (by decide)

end FrappeQuickstart
